import Mathlib

/-!
Verification development for the trip-planner application
(`src/multi_agent_trip_planner.py`).

The Python source is shallowly embedded:
pure string/list manipulation becomes Lean functions on `String`/`List`;
the external search collaborator and the language-model collaborator are
parameters (`Except` models a raised exception versus a returned value);
Python `str.lower`/`str.strip` are modelled by `py_lower`/`py_strip`;
Python `int(...)` by `py_int`; dict presence by `Option`.
Prices coming back from the JSON provider are modelled as either integers
(`PriceVal.int`, the `isinstance(price, int)` branch) or raw provider text
(`PriceVal.raw`, everything else, rendered as-is); hotel nightly rates are
rationals (JSON numbers).
-/

namespace TripPlanner

/-- Model of Python `str.lower()` (ASCII case folding, as used on the
city-name keys of the source). -/
def py_lower (s : String) : String := ⟨s.data.map Char.toLower⟩

/-- Model of Python `str.strip()`: drop leading and trailing whitespace. -/
def py_strip (s : String) : String :=
  ⟨((s.data.dropWhile Char.isWhitespace).reverse.dropWhile Char.isWhitespace).reverse⟩

/-- Digits of a nonempty all-digit character list, as a natural number;
`none` otherwise.  Helper for `py_int`. -/
def digits_to_nat (cs : List Char) : Option Nat :=
  if cs ≠ [] ∧ cs.all Char.isDigit then
    some (cs.foldl (fun a c => a * 10 + (c.toNat - 48)) 0)
  else none

/-- Model of Python `int(...)` on the (already stripped) chat input:
optional sign followed by a nonempty digit string; anything else raises
`ValueError`, modelled as `none`.  (Digit-group underscores, accepted by
CPython, are not modelled; the claims only condition on parse success or
failure.) -/
def py_int (s : String) : Option Int :=
  match (py_strip s).data with
  | '-' :: rest => (digits_to_nat rest).map (fun n => -(n : Int))
  | '+' :: rest => (digits_to_nat rest).map (fun n => (n : Int))
  | cs => (digits_to_nat cs).map (fun n => (n : Int))

/-- Thousands grouping: insert a comma after every third character counting
from the right.  Works on the reversed digit list.  Helper for
`formatThousands`. -/
def comma_group : List Char → Nat → List Char
  | [], _ => []
  | c :: cs, n =>
    (if n ≠ 0 ∧ n % 3 = 0 then [',', c] else [c]) ++ comma_group cs (n + 1)

/-- Little-endian decimal digits of `n` with explicit fuel (structural
recursion; `fuel ≥ n` suffices).  Helper for `formatThousands`. -/
def nat_digits_rev : Nat → Nat → List Char
  | 0, _ => []
  | fuel + 1, n =>
    if n = 0 then [] else Char.ofNat (48 + n % 10) :: nat_digits_rev fuel (n / 10)

/-- Model of the Python format specifier `{price:,}` on an `int`:
decimal rendering with thousands-grouping commas. -/
def formatThousands (n : Int) : String :=
  let mag := n.natAbs
  let digitsRev := if mag = 0 then ['0'] else nat_digits_rev mag mag
  let grouped : String := ⟨(comma_group digitsRev 0).reverse⟩
  if n < 0 then "-" ++ grouped else grouped

/-!  ## Airport Code Resolver (lines 74-85 of the source)  -/

/-- The fixed city-name → IATA table of `get_flight_info`. -/
def iata_mapping (city : String) : Option String :=
  match city with
  | "ahmedabad" => some "AMD"
  | "goa" => some "GOI"
  | "delhi" => some "DEL"
  | "mumbai" => some "BOM"
  | "bangalore" => some "BLR"
  | "chennai" => some "MAA"
  | "kolkata" => some "CCU"
  | "hyderabad" => some "HYD"
  | "jaipur" => some "JAI"
  | "kochi" => some "COK"
  | "paris" => some "CDG"
  | "london" => some "LHR"
  | "new york" => some "JFK"
  | "los angeles" => some "LAX"
  | "tokyo" => some "NRT"
  | "dubai" => some "DXB"
  | "singapore" => some "SIN"
  | "sydney" => some "SYD"
  | "toronto" => some "YYZ"
  | "frankfurt" => some "FRA"
  | "hong kong" => some "HKG"
  | "amsterdam" => some "AMS"
  | "bangkok" => some "BKK"
  | "shanghai" => some "PVG"
  | "beijing" => some "PEK"
  | "seoul" => some "ICN"
  | "doha" => some "DOH"
  | "zurich" => some "ZRH"
  | "kuala lumpur" => some "KUL"
  | _ => none

/-- `iata_mapping.get(city.lower().strip())` of the source. -/
def resolve_airport (s : String) : Option String :=
  iata_mapping (py_strip (py_lower s))

/-!  ## Flight Query Adapter (lines 73-119 of the source)  -/

/-- A price coming back in the provider JSON: an integer (the
`isinstance(price, int)` branch of the source) or any other provider value
kept as its textual rendering. -/
inductive PriceVal where
  | int (n : Int)
  | raw (s : String)
deriving DecidableEq

/-- One leg of a flight option (`seg` in the source); `airline` may be
absent (`seg.get("airline", "-")`). -/
structure FlightSeg where
  airline : Option String
deriving DecidableEq

/-- One flight option of the provider response: `price` may be absent
(`f.get("price", "N/A")`), `flights` is the list of legs
(`f.get("flights", [])`). -/
structure FlightOpt where
  price : Option PriceVal
  flights : List FlightSeg
deriving DecidableEq

/-- The provider response for a flight search; an absent key is the empty
list (`results.get("best_flights", [])`). -/
structure FlightResponse where
  best_flights : List FlightOpt
  other_flights : List FlightOpt
deriving DecidableEq

/-- The query parameters `get_flight_info` sends to the search collaborator.
Dates are days counted from a fixed epoch, `today` being the current day;
an unresolved city yields `none` (Python `None`) in the corresponding
field. -/
structure FlightParams where
  departure_id : Option String
  arrival_id : Option String
  outbound_date : Nat
  return_date : Nat
  currency : String
  hl : String
  gl : String
deriving DecidableEq

/-- The `params` dictionary built by `get_flight_info` (lines 84-100):
codes from the table lookup, outbound date `today + 30`, return date
`today + 37`. -/
def flight_query_params (departure arrival : String) (today : Nat) : FlightParams :=
  { departure_id := iata_mapping (py_strip (py_lower departure))
    arrival_id := iata_mapping (py_strip (py_lower arrival))
    outbound_date := today + 30
    return_date := today + 37
    currency := "INR"
    hl := "en"
    gl := "in" }

/-- Price rendering of one summary line: thousands-grouped for an integer
price, the raw provider value otherwise, `N/A` when absent (lines
113-115). -/
def render_price : Option PriceVal → String
  | some (PriceVal.int n) => formatThousands n
  | some (PriceVal.raw s) => s
  | none => "N/A"

/-- One summary line of the flight result (line 114-115): de-duplicated
carrier names joined with `/` (Python builds a set; modelled by `dedup`),
then the rendered price. -/
def summarize_flight (f : FlightOpt) : String :=
  "- " ++ String.intercalate "/" ((f.flights.map (fun s => s.airline.getD "-")).dedup)
    ++ " | ₹" ++ render_price f.price

/-- Result-list handling of `get_flight_info` (lines 104-116): prefer
`best_flights`, fall back to `other_flights`, report none found when both
are empty, otherwise summarize the first three options. -/
def flight_lines (r : FlightResponse) : String :=
  let flights := if r.best_flights.isEmpty then r.other_flights else r.best_flights
  if flights.isEmpty then "❌ No flights found or invalid data structure from SerpAPI."
  else String.intercalate "\n" ((flights.take 3).map summarize_flight)

/-- `get_flight_info` (lines 73-119).  The external search collaborator is
the parameter `search`; `Except.error e` models an exception raised during
the call (caught by the `try` of the source and rendered as text).  Note
the source builds `params` and calls the collaborator without checking
whether either IATA lookup succeeded. -/
def get_flight_info (departure arrival : String) (today : Nat)
    (search : FlightParams → Except String FlightResponse) : String :=
  let params := flight_query_params departure arrival today
  match search params with
  | Except.error e => "Exception occurred while fetching flights: " ++ e
  | Except.ok results => flight_lines results

/-!  ## Hotel Query Adapter (lines 122-152 of the source)  -/

/-- One property of the hotel provider response: `extracted_lowest` models
`h.get("rate_per_night", {}).get("extracted_lowest")`, absent as `none`. -/
structure HotelProp where
  name : String
  extracted_lowest : Option ℚ
deriving DecidableEq

/-- The fixed budget-tier → nightly-price-ceiling table with its 9000
default (`price_caps.get(budget, 9000)`, lines 141-142). -/
def price_caps (budget : String) : ℚ :=
  if budget = "low-range" then 4000
  else if budget = "mid-range" then 9000
  else if budget = "luxury" then 90000
  else 9000

/-- One iteration of the shortlist loop body (lines 145-148): keep the
property when its price is present, truthy (nonzero) and at most the cap
(`if price and price <= cap`).  The shortlist is accumulated in reverse. -/
def hotel_accept (cap : ℚ) (h : HotelProp) (acc : List (String × ℚ)) :
    List (String × ℚ) :=
  match h.extracted_lowest with
  | some p => if p ≠ 0 ∧ p ≤ cap then (h.name, p) :: acc else acc
  | none => acc

/-- The shortlist loop (lines 145-150): iterate the properties in provider
order, breaking as soon as three matches are collected
(`if len(shortlist) == 3: break`). -/
def hotel_shortlist_go (cap : ℚ) : List HotelProp → List (String × ℚ) → List (String × ℚ)
  | [], acc => acc.reverse
  | h :: rest, acc =>
    if (hotel_accept cap h acc).length = 3 then (hotel_accept cap h acc).reverse
    else hotel_shortlist_go cap rest (hotel_accept cap h acc)

/-- The shortlist of `get_hotel_info` for a budget tier, as (name, nightly
price) pairs in selection order. -/
def hotel_shortlist (budget : String) (props : List HotelProp) : List (String × ℚ) :=
  hotel_shortlist_go (price_caps budget) props []

/-- Python `int(price)`: truncation of the rational price toward zero
(`Int` division truncates toward zero and the denominator is positive). -/
def py_int_trunc (q : ℚ) : Int := q.num / (q.den : Int)

/-- The formatted shortlist line (line 148). -/
def fmt_hotel (pr : String × ℚ) : String :=
  "- " ++ pr.1 ++ " | ₹" ++ formatThousands (py_int_trunc pr.2)

/-- The text `get_hotel_info` produces from a successful provider response
(lines 137-152): empty property list, the priced shortlist, or the
no-budget-match message when the joined shortlist is the empty (falsy)
string. -/
def get_hotel_text (budget : String) (props : List HotelProp) : String :=
  if props.isEmpty then "No hotels found via SerpAPI."
  else
    let joined := String.intercalate "\n" ((hotel_shortlist budget props).map fmt_hotel)
    if joined = "" then "No hotels matched the chosen budget." else joined

/-- `get_hotel_info` (lines 122-152).  The collaborator call outcome is the
parameter `call` (`Except.error e` models an exception raised during
`GoogleSearch(params).get_dict()`).  The source wraps this call in no
`try`/`except`, so an exception propagates to the caller unchanged —
modelled by passing the `error` through.  `city` only enters the query
text sent to the provider. -/
def get_hotel_info (city budget : String)
    (call : Except String (List HotelProp)) : Except String String :=
  match call with
  | Except.error e => Except.error e
  | Except.ok props => Except.ok (get_hotel_text budget props)

/-- `true` exactly when the adapter returned text rather than letting an
exception escape. -/
def except_is_ok : Except String String → Bool
  | Except.ok _ => true
  | Except.error _ => false

/-!  ## Itinerary Synthesizer (lines 155-224 of the source)  -/

/-- The itinerary component of `generate_full_itinerary`'s return value
(lines 223-224): `str(itinerary_task.output) if itinerary_task.output else
"Itinerary generation failed."`.  `output` is `none` when the task output
is absent (falsy); otherwise the rendered output text is returned as-is —
the source performs no inspection of the text itself. -/
def itinerary_output (output : Option String) : String :=
  match output with
  | some s => s
  | none => "Itinerary generation failed."

/-!  ## Revision Handler (lines 235-285 of the source)  -/

/-- Acceptance step of the edit flow (lines 278-282): the model response
`updated` replaces the stored itinerary exactly when
`updated.strip().lower().startswith("day")`; otherwise the stored text is
kept and failure is reported (the Boolean component, `false` meaning the
failure message is shown). -/
def edit_apply (current updated : String) : String × Bool :=
  if ("day".data).isPrefixOf (py_lower (py_strip updated)).data
  then (updated, true)
  else (current, false)

/-!  ## Intake Sequencer (lines 38-70 of the source)  -/

/-- The conversation stage: `collecting` until all four fields are
supplied, then `planning`. -/
inductive Stage where
  | collecting
  | planning
deriving DecidableEq

/-- `st.session_state.user_data`: dict presence modelled by `Option`. -/
structure UserData where
  destination : Option String := none
  days : Option Int := none
  budget : Option String := none
  departure : Option String := none
deriving DecidableEq

/-- Outcome of one script pass of the collecting stage: the updated data,
the stage after the pass, and the assistant messages shown during the
pass. -/
structure StepView where
  data : UserData
  stage : Stage
  shown : List String
deriving DecidableEq

def destQ : String := "Where would you like to travel?"

def daysQ : String := "How many days will your trip be?"

def budgetQ : String := "What\x27s your budget? (low-range, mid-range, luxury)"

def departQ : String := "Which city will you be departing from?"

def numErr : String := "Please enter a valid number."

/-- One pass of the collecting-stage conditional chain (lines 38-70).
`input` is `st.session_state.last_input`: the stripped chat text, `none`
when absent or blank (falsy).  Each branch shows its question; the days
branch parses the input with `int(...)`, on failure showing the error
message and leaving the field unset; the budget is stored lower-cased and
stripped; accepting the departure city moves the stage to planning. -/
def collect_step (d : UserData) (input : Option String) : StepView :=
  match d.destination with
  | none =>
    match input with
    | some s => ⟨{ d with destination := some s }, Stage.collecting, [destQ]⟩
    | none => ⟨d, Stage.collecting, [destQ]⟩
  | some _ =>
  match d.days with
  | none =>
    match input with
    | some s =>
      match py_int s with
      | some n => ⟨{ d with days := some n }, Stage.collecting, [daysQ]⟩
      | none => ⟨d, Stage.collecting, [daysQ, numErr]⟩
    | none => ⟨d, Stage.collecting, [daysQ]⟩
  | some _ =>
  match d.budget with
  | none =>
    match input with
    | some s => ⟨{ d with budget := some (py_strip (py_lower s)) }, Stage.collecting, [budgetQ]⟩
    | none => ⟨d, Stage.collecting, [budgetQ]⟩
  | some _ =>
  match d.departure with
  | none =>
    match input with
    | some s => ⟨{ d with departure := some s }, Stage.planning, [departQ]⟩
    | none => ⟨d, Stage.collecting, [departQ]⟩
  | some _ => ⟨d, Stage.collecting, []⟩

/-!  ## Helper lemmas  -/

theorem hotel_accept_eq_or (cap : ℚ) (h : HotelProp) (acc : List (String × ℚ)) :
    hotel_accept cap h acc = acc ∨
      ∃ p, h.extracted_lowest = some p ∧ p ≠ 0 ∧ p ≤ cap ∧
        hotel_accept cap h acc = (h.name, p) :: acc := by
  cases hrate : h.extracted_lowest with
  | none => exact Or.inl (by unfold hotel_accept; rw [hrate])
  | some p =>
    have hred : hotel_accept cap h acc =
        if p ≠ 0 ∧ p ≤ cap then (h.name, p) :: acc else acc := by
      unfold hotel_accept; rw [hrate]
    by_cases hc : p ≠ 0 ∧ p ≤ cap
    · exact Or.inr ⟨p, rfl, hc.1, hc.2, by rw [hred, if_pos hc]⟩
    · exact Or.inl (by rw [hred, if_neg hc])

theorem hotel_accept_length_le (cap : ℚ) (h : HotelProp) (acc : List (String × ℚ)) :
    (hotel_accept cap h acc).length ≤ acc.length + 1 := by
  rcases hotel_accept_eq_or cap h acc with heq | ⟨p, _, _, _, heq⟩ <;> simp [heq]

theorem hotel_shortlist_go_length_le (cap : ℚ) (l : List HotelProp) :
    ∀ acc : List (String × ℚ), acc.length < 3 →
      (hotel_shortlist_go cap l acc).length ≤ 3 := by
  induction l with
  | nil => intro acc h; simpa [hotel_shortlist_go] using Nat.le_of_lt h
  | cons hp rest ih =>
    intro acc h
    have hlen := hotel_accept_length_le cap hp acc
    rw [hotel_shortlist_go]
    by_cases h3 : (hotel_accept cap hp acc).length = 3
    · rw [if_pos h3]; simp [h3]
    · rw [if_neg h3]; exact ih _ (by omega)

theorem hotel_shortlist_go_mem_le (cap : ℚ) (l : List HotelProp) :
    ∀ acc, (∀ pr ∈ acc, pr.2 ≤ cap) →
      ∀ pr ∈ hotel_shortlist_go cap l acc, pr.2 ≤ cap := by
  induction l with
  | nil =>
    intro acc hacc pr hpr
    rw [hotel_shortlist_go] at hpr
    exact hacc pr (List.mem_reverse.mp hpr)
  | cons hp rest ih =>
    intro acc hacc pr hpr
    have hacc2 : ∀ pr ∈ hotel_accept cap hp acc, pr.2 ≤ cap := by
      rcases hotel_accept_eq_or cap hp acc with heq | ⟨p, _, _, hle, heq⟩
      · rw [heq]; exact hacc
      · rw [heq]; intro x hx
        rcases List.mem_cons.mp hx with h1 | h2
        · rw [h1]; exact hle
        · exact hacc x h2
    rw [hotel_shortlist_go] at hpr
    by_cases h3 : (hotel_accept cap hp acc).length = 3
    · rw [if_pos h3] at hpr; exact hacc2 pr (List.mem_reverse.mp hpr)
    · rw [if_neg h3] at hpr; exact ih _ hacc2 pr hpr

theorem hotel_shortlist_go_mem_src (cap : ℚ) (l : List HotelProp) :
    ∀ acc pr, pr ∈ hotel_shortlist_go cap l acc →
      pr ∈ acc ∨ ∃ hp ∈ l, hp.name = pr.1 ∧ hp.extracted_lowest = some pr.2 ∧ pr.2 ≠ 0 := by
  induction l with
  | nil =>
    intro acc pr hpr
    rw [hotel_shortlist_go] at hpr
    exact Or.inl (List.mem_reverse.mp hpr)
  | cons hp rest ih =>
    intro acc pr hpr
    have haccmem : pr ∈ hotel_accept cap hp acc →
        pr ∈ acc ∨ (hp.name = pr.1 ∧ hp.extracted_lowest = some pr.2 ∧ pr.2 ≠ 0) := by
      rcases hotel_accept_eq_or cap hp acc with heq | ⟨p, hr, hne, _, heq⟩
      · rw [heq]; exact Or.inl
      · rw [heq]; intro hx
        rcases List.mem_cons.mp hx with h1 | h2
        · right
          refine ⟨by rw [h1], by rw [h1]; exact hr, by rw [h1]; exact hne⟩
        · exact Or.inl h2
    rw [hotel_shortlist_go] at hpr
    by_cases h3 : (hotel_accept cap hp acc).length = 3
    · rw [if_pos h3] at hpr
      rcases haccmem (List.mem_reverse.mp hpr) with h | h
      · exact Or.inl h
      · exact Or.inr ⟨hp, List.mem_cons_self hp rest, h⟩
    · rw [if_neg h3] at hpr
      rcases ih _ pr hpr with hacc | ⟨x, hx, hprop⟩
      · rcases haccmem hacc with h | h
        · exact Or.inl h
        · exact Or.inr ⟨hp, List.mem_cons_self hp rest, h⟩
      · exact Or.inr ⟨x, List.mem_cons_of_mem _ hx, hprop⟩

theorem hotel_accept_bad (cap : ℚ) (bad : HotelProp)
    (hbad : bad.extracted_lowest = none ∨ bad.extracted_lowest = some 0)
    (acc : List (String × ℚ)) : hotel_accept cap bad acc = acc := by
  rcases hbad with h | h <;> simp [hotel_accept, h]

theorem hotel_shortlist_go_skip_bad (cap : ℚ) (bad : HotelProp)
    (hbad : bad.extracted_lowest = none ∨ bad.extracted_lowest = some 0)
    (l1 : List HotelProp) :
    ∀ (l2 : List HotelProp) (acc : List (String × ℚ)), acc.length < 3 →
      hotel_shortlist_go cap (l1 ++ bad :: l2) acc = hotel_shortlist_go cap (l1 ++ l2) acc := by
  induction l1 with
  | nil =>
    intro l2 acc h
    simp only [List.nil_append]
    rw [hotel_shortlist_go, hotel_accept_bad cap bad hbad]
    rw [if_neg (by omega)]
  | cons hp t ih =>
    intro l2 acc h
    simp only [List.cons_append]
    rw [hotel_shortlist_go, hotel_shortlist_go]
    have hlen := hotel_accept_length_le cap hp acc
    by_cases h3 : (hotel_accept cap hp acc).length = 3
    · rw [if_pos h3, if_pos h3]
    · rw [if_neg h3, if_neg h3]; exact ih l2 _ (by omega)

/-!  ## Claim theorems  -/

/-- Claim C1 (counterexample): the source wraps the hotel search call in no
`try`/`except`, so an exception raised during the call is NOT converted to
failure text: at city "goa", budget "luxury" and a provider raising "boom",
`get_hotel_info` propagates the exception instead of returning text,
refuting the claim that no exception is ever propagated to the caller. -/
theorem get_hotel_info_exception_counterexample :
    except_is_ok (get_hotel_info "goa" "luxury" (Except.error "boom")) = false := rfl

/-- Claim C1 (amended): for every city, budget tier and provider behaviour,
`get_hotel_info` propagates an exception raised during the external search
call unchanged to the caller, and returns text (no fault) exactly on the
non-exception outcomes. -/
theorem get_hotel_info_exception_amended (city budget e : String) :
    get_hotel_info city budget (Except.error e) = Except.error e ∧
    ∀ props : List HotelProp,
      except_is_ok (get_hotel_info city budget (Except.ok props)) = true :=
  ⟨rfl, fun _ => rfl⟩

/-- Claim C2 (counterexample): "atlantis" is not in the IATA table, yet
`get_flight_info` does not short-circuit: its result depends on the search
collaborator's behaviour (an exception-raising collaborator and a
successful one yield different results), so the collaborator is invoked
and no table-driven not-found result is returned. -/
theorem get_flight_info_unresolved_counterexample :
    iata_mapping (py_strip (py_lower "atlantis")) = none ∧
    get_flight_info "atlantis" "delhi" 0 (fun _ => Except.error "boom") ≠
      get_flight_info "atlantis" "delhi" 0 (fun _ => Except.ok ⟨[], []⟩) :=
  ⟨rfl, by decide⟩

/-- Claim C2 (amended): `get_flight_info` performs no resolvability check:
for every pair of city names (resolvable or not), it invokes the search
collaborator and its result is determined by the collaborator's outcome —
exception text on an exception, the summarized response otherwise. -/
theorem get_flight_info_provider_driven (departure arrival : String) (today : Nat)
    (e : String) (r : FlightResponse) :
    get_flight_info departure arrival today (fun _ => Except.error e)
      = "Exception occurred while fetching flights: " ++ e ∧
    get_flight_info departure arrival today (fun _ => Except.ok r) = flight_lines r :=
  ⟨rfl, rfl⟩

/-- Claim C3 (counterexample): the response "hello" contains neither a
day-section marker nor a time-block marker, yet the synthesizer returns it
verbatim rather than a fixed failure message — the source checks only that
the task output is present, never its content. -/
theorem itinerary_output_no_marker_counterexample :
    itinerary_output (some "hello") = "hello" ∧
    ("hello" : String) ≠ "Itinerary generation failed." ∧
    ¬ ("Day".data <:+: "hello".data) ∧ ¬ ("Morning".data <:+: "hello".data) :=
  ⟨rfl, by decide, by decide, by decide⟩

/-- Claim C3 (amended): the Itinerary Synthesizer performs no section-marker
check on the language-model response: every present response is returned
verbatim, and the fixed failure message is returned exactly when the task
output is absent. -/
theorem itinerary_output_amended (s : String) :
    itinerary_output (some s) = s ∧
    itinerary_output none = "Itinerary generation failed." :=
  ⟨rfl, rfl⟩

/-- Claim C4 (counterexample): with a trip length of 3 days collected at
intake, the claim demands a return date of outbound + 3, but the source
always sends `today + 37` (a fixed 7-day offset), refuting the claim. -/
theorem flight_dates_counterexample :
    (flight_query_params "delhi" "paris" 0).outbound_date = 0 + 30 ∧
    (flight_query_params "delhi" "paris" 0).return_date ≠
      (flight_query_params "delhi" "paris" 0).outbound_date + 3 :=
  ⟨rfl, by decide⟩

/-- Claim C4 (amended): for every flight query, the outbound date sent to
the search collaborator equals today + 30 days, and the return date equals
the outbound date + 7 days — a constant offset independent of the trip
length collected at intake. -/
theorem flight_dates_amended (departure arrival : String) (today : Nat) :
    (flight_query_params departure arrival today).outbound_date = today + 30 ∧
    (flight_query_params departure arrival today).return_date =
      (flight_query_params departure arrival today).outbound_date + 7 :=
  ⟨rfl, by dsimp only [flight_query_params]⟩

/-- Claim C5: for every budget-tier string and provider property list, the
hotel shortlist has at most 3 entries and no entry's nightly price exceeds
the tier ceiling; the ceiling table is low-range → 4000, mid-range → 9000,
luxury → 90000, and 9000 for any other tier string. -/
theorem hotel_shortlist_spec (budget : String) (props : List HotelProp) :
    (hotel_shortlist budget props).length ≤ 3 ∧
    (∀ pr ∈ hotel_shortlist budget props, pr.2 ≤ price_caps budget) ∧
    price_caps "low-range" = 4000 ∧ price_caps "mid-range" = 9000 ∧
    price_caps "luxury" = 90000 ∧
    (∀ b, b ≠ "low-range" → b ≠ "mid-range" → b ≠ "luxury" → price_caps b = 9000) := by
  refine ⟨hotel_shortlist_go_length_le _ props [] (by simp),
          hotel_shortlist_go_mem_le _ props [] (by simp),
          by decide, by decide, by decide,
          fun b h1 h2 h3 => by simp [price_caps, h1, h2, h3]⟩

/-- Witness for C5 at a concrete tier and property list: the shortlist is
short, the selected 3000-rupee property respects the low-range ceiling,
and the unrecognized tier "cheap" gets the 9000 default. -/
theorem hotel_shortlist_spec_witness :
    (hotel_shortlist "low-range"
        [⟨"A", some 3000⟩, ⟨"B", some 5000⟩]).length ≤ 3 ∧
    (("A", (3000 : ℚ)) ∈ hotel_shortlist "low-range"
        [⟨"A", some 3000⟩, ⟨"B", some 5000⟩] →
      (3000 : ℚ) ≤ price_caps "low-range") ∧
    price_caps "cheap" = 9000 := by
  refine ⟨(hotel_shortlist_spec "low-range" [⟨"A", some 3000⟩, ⟨"B", some 5000⟩]).1,
          fun hm => ?_,
          (hotel_shortlist_spec "cheap" []).2.2.2.2.2 "cheap"
            (by decide) (by decide) (by decide)⟩
  exact (hotel_shortlist_spec "low-range" [⟨"A", some 3000⟩, ⟨"B", some 5000⟩]).2.1
    ("A", (3000 : ℚ)) hm

/-- Claim C6: on a successful search response the flight adapter prefers
`best_flights`, falls back to `other_flights` only when the first is empty,
reports none found when both are empty, and otherwise summarizes at most 3
entries, each as the de-duplicated carrier names joined with "/" and the
price — thousands-grouped for an integer price, the raw provider value
otherwise. -/
theorem flight_lines_spec (r : FlightResponse) :
    (r.best_flights = [] → r.other_flights = [] →
      flight_lines r = "❌ No flights found or invalid data structure from SerpAPI.") ∧
    (r.best_flights ≠ [] →
      flight_lines r = String.intercalate "\n"
        ((r.best_flights.take 3).map summarize_flight)) ∧
    (r.best_flights = [] → r.other_flights ≠ [] →
      flight_lines r = String.intercalate "\n"
        ((r.other_flights.take 3).map summarize_flight)) ∧
    ((r.best_flights.take 3).length ≤ 3 ∧ (r.other_flights.take 3).length ≤ 3) ∧
    (∀ f, summarize_flight f =
      "- " ++ String.intercalate "/" ((f.flights.map (fun s => s.airline.getD "-")).dedup)
        ++ " | ₹" ++ render_price f.price) ∧
    (∀ n, render_price (some (PriceVal.int n)) = formatThousands n) ∧
    (∀ s, render_price (some (PriceVal.raw s)) = s) := by
  obtain ⟨best, other⟩ := r
  refine ⟨?_, ?_, ?_, ⟨List.length_take_le 3 _, List.length_take_le 3 _⟩,
          fun f => rfl, fun n => rfl, fun s => rfl⟩
  · intro h1 h2
    dsimp only at h1 h2
    subst h1; subst h2
    rfl
  · intro h1
    dsimp only at h1
    cases best with
    | nil => exact absurd rfl h1
    | cons f fs => simp [flight_lines]
  · intro h1 h2
    dsimp only at h1 h2
    subst h1
    cases other with
    | nil => exact absurd rfl h2
    | cons f fs => simp [flight_lines]

/-- Witness for C6 at concrete responses: fallback to `other_flights` when
`best_flights` is empty, and the none-found message when both are empty. -/
theorem flight_lines_spec_witness :
    flight_lines ⟨[], [⟨some (PriceVal.int 5000), [⟨some "AI"⟩]⟩]⟩ =
      String.intercalate "\n"
        ((([⟨some (PriceVal.int 5000), [⟨some "AI"⟩]⟩] : List FlightOpt).take 3).map
          summarize_flight) ∧
    flight_lines ⟨[], []⟩ = "❌ No flights found or invalid data structure from SerpAPI." :=
  ⟨(flight_lines_spec ⟨[], [⟨some (PriceVal.int 5000), [⟨some "AI"⟩]⟩]⟩).2.2.1 rfl
      (by decide),
   (flight_lines_spec ⟨[], []⟩).1 rfl rfl⟩

/-- Claim C7: for every city name in the IATA table and every pair of input
strings that lower-case and strip to it, the resolver returns the same
airport code for both inputs (lookup is exact on lower-cased, trimmed
input). -/
theorem resolve_airport_invariant (c code : String) (hc : iata_mapping c = some code)
    (s1 s2 : String) (h1 : py_strip (py_lower s1) = c)
    (h2 : py_strip (py_lower s2) = c) :
    resolve_airport s1 = resolve_airport s2 ∧ resolve_airport s1 = some code := by
  unfold resolve_airport
  rw [h1, h2]
  exact ⟨rfl, hc⟩

/-- Witness for C7: " Delhi" and "DELHI  " differ from the table key
"delhi" only by case and surrounding whitespace and resolve identically. -/
theorem resolve_airport_invariant_witness :
    resolve_airport " Delhi" = resolve_airport "DELHI  " ∧
    resolve_airport " Delhi" = some "DEL" :=
  resolve_airport_invariant "delhi" "DEL" (by decide) " Delhi" "DELHI  "
    (by decide) (by decide)

/-- Claim C8: the revision handler replaces the stored itinerary with the
model response exactly when the response, stripped and lower-cased, begins
with "day" (the expected leading token compared case-insensitively);
otherwise the stored itinerary is kept and failure is reported. -/
theorem edit_apply_spec (cur upd : String) :
    (("day".data <+: (py_lower (py_strip upd)).data) →
      edit_apply cur upd = (upd, true)) ∧
    (¬ ("day".data <+: (py_lower (py_strip upd)).data) →
      edit_apply cur upd = (cur, false)) := by
  constructor <;> intro h <;>
    simp [edit_apply, List.isPrefixOf_iff_prefix, h]

/-- Witness for C8: a response starting with "  DAY" (case-insensitively
"day" after stripping) is accepted; one starting with "Sorry" is rejected
and the stored text kept. -/
theorem edit_apply_spec_witness :
    edit_apply "old" "  DAY 2: beach" = ("  DAY 2: beach", true) ∧
    edit_apply "old" "Sorry, cannot." = ("old", false) :=
  ⟨(edit_apply_spec "old" "  DAY 2: beach").1 (by decide),
   (edit_apply_spec "old" "Sorry, cannot.").2 (by decide)⟩

/-- Claim C9: at the trip-length question (destination set, days unset), a
non-parsing input leaves the days field unset, shows the error message
after the question, and the next pass re-asks the same question; a parsing
input sets days to the parsed integer and the next pass asks the budget
question (the next field). -/
theorem collect_step_days_spec (d : UserData) (dest : String)
    (hdest : d.destination = some dest) (hdays : d.days = none)
    (hbudget : d.budget = none) (s : String) :
    (py_int s = none →
      (collect_step d (some s)).data.days = none ∧
      (collect_step d (some s)).shown = [daysQ, numErr] ∧
      (collect_step (collect_step d (some s)).data none).shown = [daysQ]) ∧
    (∀ n : Int, py_int s = some n →
      (collect_step d (some s)).data.days = some n ∧
      (collect_step (collect_step d (some s)).data none).shown = [budgetQ]) := by
  obtain ⟨dst, dys, bud, dep⟩ := d
  dsimp only at hdest hdays hbudget
  subst hdest; subst hdays; subst hbudget
  constructor
  · intro hp
    simp [collect_step, hp]
  · intro n hp
    simp [collect_step, hp]

/-- Witness for C9: input "seven" fails to parse and the days question is
re-asked with an error; input "7" sets days to 7 and the budget question
follows. -/
theorem collect_step_days_spec_witness :
    ((collect_step ⟨some "Paris", none, none, none⟩ (some "seven")).data.days = none ∧
     (collect_step ⟨some "Paris", none, none, none⟩ (some "seven")).shown = [daysQ, numErr] ∧
     (collect_step (collect_step ⟨some "Paris", none, none, none⟩ (some "seven")).data
        none).shown = [daysQ]) ∧
    ((collect_step ⟨some "Paris", none, none, none⟩ (some "7")).data.days = some 7 ∧
     (collect_step (collect_step ⟨some "Paris", none, none, none⟩ (some "7")).data
        none).shown = [budgetQ]) :=
  ⟨(collect_step_days_spec ⟨some "Paris", none, none, none⟩ "Paris" rfl rfl rfl
      "seven").1 (by decide),
   (collect_step_days_spec ⟨some "Paris", none, none, none⟩ "Paris" rfl rfl rfl
      "7").2 7 (by decide)⟩

/-- Claim C10: every shortlisted entry originates from a provider property
whose extracted nightly price is present and nonzero, and inserting a
property with a missing rate, or a rate of 0, anywhere in the provider
list leaves the shortlist unchanged — such a property is never
shortlisted even though 0 is under every ceiling. -/
theorem hotel_shortlist_excludes_unpriced (budget : String) (props : List HotelProp) :
    (∀ pr ∈ hotel_shortlist budget props,
      ∃ hp ∈ props, hp.name = pr.1 ∧ hp.extracted_lowest = some pr.2 ∧ pr.2 ≠ 0) ∧
    (∀ (l1 l2 : List HotelProp) (bad : HotelProp),
      bad.extracted_lowest = none ∨ bad.extracted_lowest = some 0 →
      hotel_shortlist budget (l1 ++ bad :: l2) = hotel_shortlist budget (l1 ++ l2)) := by
  constructor
  · intro pr hpr
    rcases hotel_shortlist_go_mem_src _ props [] pr hpr with h | h
    · exact absurd h (List.not_mem_nil pr)
    · exact h
  · intro l1 l2 bad hbad
    exact hotel_shortlist_go_skip_bad _ bad hbad l1 l2 [] (by simp)

/-- Witness for C10: the selected 3000-rupee property traces back to the
provider list, and inserting a zero-priced property changes nothing. -/
theorem hotel_shortlist_excludes_unpriced_witness :
    (∃ hp ∈ [(⟨"A", some 3000⟩ : HotelProp), ⟨"Z", some 0⟩],
      hp.name = "A" ∧ hp.extracted_lowest = some (3000 : ℚ) ∧ (3000 : ℚ) ≠ 0) ∧
    hotel_shortlist "luxury" ([⟨"A", some 3000⟩] ++ (⟨"Z", some 0⟩ : HotelProp) ::
        [⟨"B", some 10⟩]) =
      hotel_shortlist "luxury" ([⟨"A", some 3000⟩] ++ [⟨"B", some 10⟩]) :=
  ⟨(hotel_shortlist_excludes_unpriced "luxury"
      [⟨"A", some 3000⟩, ⟨"Z", some 0⟩]).1 ("A", (3000 : ℚ)) (by decide),
   (hotel_shortlist_excludes_unpriced "luxury" []).2
      [⟨"A", some 3000⟩] [⟨"B", some 10⟩] ⟨"Z", some 0⟩ (Or.inr rfl)⟩

end TripPlanner
